import Mathlib

/-!
Verification of the UfoParameters repository: a shallow embedding of the
dimensional-normalisation engine (norm.py), the ideal-gas equation of state
(eos.py) and the ufo parameter evaluator (ufo_parameters.py), together with
proofs and refutations of the specification claims.

Numeric conventions: Python float arithmetic is modelled exactly, by rational
numbers for the equation-of-state module (all of whose operations are field
operations) and by real numbers for the parameter evaluator (which uses pi,
sqrt and cos).
-/

namespace UfoParameters

/-- Modelled from the spec: the external physical-constants table `physconst`
(imported as `pc` by the source; spec section 6 lists it as an external table
of CGS constants, consumed read-only).  Boltzmann constant in erg/K. -/
def kboltzQ : ℚ := 1.380658e-16

/-- Modelled from the spec: atomic mass unit in grams (external constants
table). -/
def amuQ : ℚ := 1.6605402e-24

/-- Boltzmann constant as a real number. -/
def kboltz : ℝ := (kboltzQ : ℝ)

/-- Atomic mass unit as a real number. -/
def amu : ℝ := (amuQ : ℝ)

/-- Modelled from the spec: speed of light in cm/s (external constants
table). -/
def clight : ℝ := 2.99792458e10

/-- Modelled from the spec: kiloparsec in cm (spec section 8 uses the anchor
length 3.086e21 cm). -/
def kpc : ℝ := 3.086e21

/-- Modelled from the spec: year in seconds (kyr below is 3.156e10 s per spec
section 8). -/
def yr : ℝ := 3.156e7

/-- Modelled from the spec: kiloyear in seconds (spec section 8 anchor). -/
def kyr : ℝ := 3.156e10

/-- Modelled from the spec: solar mass in grams (external constants table). -/
def msun : ℝ := 1.989e33

/-- Mean molecular mass of `IonizedISM`, the default composition of
`EOSIdeal` (eos.py line 40). -/
def muIonized : ℚ := 0.6165

/-- The density/pressure/temperature scaling factors of a normalisation
object, as consumed by the equation of state (eos.py accesses
`inorm.dens`, `inorm.pres`, `inorm.temp` and the same on `onorm`). -/
structure EOSNorm where
  dens : ℚ
  pres : ℚ
  temp : ℚ
deriving DecidableEq

/-- State of an `EOSIdeal` instance over the density/pressure/temperature
triple (eos.py `EOSBase.__init__`): a value the caller did not supply is
`Option.none` (Python `None`); `mu` comes from the composition object;
`inorm` and `onorm` are the input and output normalisations. -/
structure EOSState where
  dens : Option ℚ
  pres : Option ℚ
  temp : Option ℚ
  mu : ℚ
  inorm : EOSNorm
  onorm : EOSNorm
deriving DecidableEq

/-- `EOSIdeal.pres_from_dens_temp` (eos.py lines 150-160): an explicit
argument is multiplied by the input normalisation, an omitted argument falls
back to the stored value (already in internal units).  A stored `None` would
raise a TypeError in Python; the fallback `getD 0` is only exercised on
guarded paths where the stored value is present. -/
def presFromDensTempQ (e : EOSState) (dens temp mu : Option ℚ) : ℚ :=
  let d := match dens with
    | Option.none => e.dens.getD 0
    | Option.some x => x * e.inorm.dens
  let t := match temp with
    | Option.none => e.temp.getD 0
    | Option.some x => x * e.inorm.temp
  let m := mu.getD e.mu
  d * t * kboltzQ / (m * amuQ) / e.onorm.pres

/-- `EOSIdeal.dens_from_pres_temp` (eos.py lines 162-171). -/
def densFromPresTempQ (e : EOSState) (pres temp mu : Option ℚ) : ℚ :=
  let p := match pres with
    | Option.none => e.pres.getD 0
    | Option.some x => x * e.inorm.pres
  let t := match temp with
    | Option.none => e.temp.getD 0
    | Option.some x => x * e.inorm.temp
  let m := mu.getD e.mu
  m * amuQ * p / (t * kboltzQ) / e.onorm.dens

/-- `EOSIdeal.temp_from_dens_pres` (eos.py lines 173-182). -/
def tempFromDensPresQ (e : EOSState) (dens pres mu : Option ℚ) : ℚ :=
  let d := match dens with
    | Option.none => e.dens.getD 0
    | Option.some x => x * e.inorm.dens
  let p := match pres with
    | Option.none => e.pres.getD 0
    | Option.some x => x * e.inorm.pres
  let m := mu.getD e.mu
  m * amuQ * p / (d * kboltzQ) / e.onorm.temp

/-- Python truthiness of an optional float: `None` and `0.0` are falsy,
every other value is truthy (`auto_eos` tests `self.dens and self.pres`). -/
def truthyB : Option ℚ → Bool
  | Option.none => false
  | Option.some x => x != 0

/-- `EOSIdeal.auto_eos` (eos.py lines 121-148): completes the missing member
of the triple.  Each branch tests the missing slot against `None` and the two
inputs for Python truthiness; on success it stores the computed value, divides
the two inputs by the output normalisation and returns the computed value; the
final branch raises a bare `ValueError`. -/
def autoEos (e : EOSState) : Except String (ℚ × EOSState) :=
  if e.temp.isNone && truthyB e.dens && truthyB e.pres then
    let t := tempFromDensPresQ e Option.none Option.none Option.none
    Except.ok (t, { e with
      temp := Option.some t,
      pres := Option.some (e.pres.getD 0 / e.onorm.pres),
      dens := Option.some (e.dens.getD 0 / e.onorm.dens) })
  else if e.pres.isNone && truthyB e.dens && truthyB e.temp then
    let p := presFromDensTempQ e Option.none Option.none Option.none
    Except.ok (p, { e with
      pres := Option.some p,
      temp := Option.some (e.temp.getD 0 / e.onorm.temp),
      dens := Option.some (e.dens.getD 0 / e.onorm.dens) })
  else if e.dens.isNone && truthyB e.pres && truthyB e.temp then
    let d := densFromPresTempQ e Option.none Option.none Option.none
    Except.ok (d, { e with
      dens := Option.some d,
      pres := Option.some (e.pres.getD 0 / e.onorm.pres),
      temp := Option.some (e.temp.getD 0 / e.onorm.temp) })
  else
    Except.error "ValueError"

/-- Number of members of the density/pressure/temperature triple that are
present (not `None`). -/
def presentCount (e : EOSState) : ℕ :=
  (if e.dens.isSome then 1 else 0) + (if e.pres.isSome then 1 else 0) +
    (if e.temp.isSome then 1 else 0)

/-- True when no present member of the triple is the float `0.0`. -/
def noZeroPresentB (e : EOSState) : Bool :=
  (match e.dens with | Option.none => true | Option.some x => x != 0) &&
  (match e.pres with | Option.none => true | Option.some x => x != 0) &&
  (match e.temp with | Option.none => true | Option.some x => x != 0)

/-- Reference behaviour written from the amended claim C5: with exactly two
members of the triple present and both present values nonzero, compute the
third by the ideal-gas relation, write back the two inputs divided by the
output normalisation and return the computed value; in every other situation
fail with the `ValueError`. -/
def autoEosSpec (e : EOSState) : Except String (ℚ × EOSState) :=
  if presentCount e = 2 && noZeroPresentB e then
    match e.dens, e.pres, e.temp with
    | Option.some d, Option.some p, Option.none =>
        Except.ok (e.mu * amuQ * p / (d * kboltzQ) / e.onorm.temp,
          { e with
            temp := Option.some (e.mu * amuQ * p / (d * kboltzQ) / e.onorm.temp),
            pres := Option.some (p / e.onorm.pres),
            dens := Option.some (d / e.onorm.dens) })
    | Option.some d, Option.none, Option.some t =>
        Except.ok (d * t * kboltzQ / (e.mu * amuQ) / e.onorm.pres,
          { e with
            pres := Option.some (d * t * kboltzQ / (e.mu * amuQ) / e.onorm.pres),
            temp := Option.some (t / e.onorm.temp),
            dens := Option.some (d / e.onorm.dens) })
    | Option.none, Option.some p, Option.some t =>
        Except.ok (e.mu * amuQ * p / (t * kboltzQ) / e.onorm.dens,
          { e with
            dens := Option.some (e.mu * amuQ * p / (t * kboltzQ) / e.onorm.dens),
            pres := Option.some (p / e.onorm.pres),
            temp := Option.some (t / e.onorm.temp) })
    | _, _, _ => Except.error "ValueError"
  else
    Except.error "ValueError"

/-- C5 (amended): for every `EOSIdeal` state, `auto_eos` computes, stores and
returns the missing member of the triple exactly when the other two members
are present and nonzero (Python truthiness), writing back the two inputs
divided by the output normalisation; in every other situation (zero, one or
three members present, or a present input equal to 0.0) it raises
`ValueError`.  Stated as equality with the reference behaviour
`autoEosSpec`. -/
theorem autoEos_eq_amended_spec (e : EOSState) : autoEos e = autoEosSpec e := by
  obtain ⟨d, p, t, mu, ino, ono⟩ := e
  cases d with
  | none =>
    cases p with
    | none =>
      cases t <;> simp [autoEos, autoEosSpec, presentCount, noZeroPresentB, truthyB]
    | some pv =>
      cases t with
      | none => simp [autoEos, autoEosSpec, presentCount, noZeroPresentB, truthyB]
      | some tv =>
        by_cases hp : pv = 0 <;> by_cases ht : tv = 0 <;>
          simp [autoEos, autoEosSpec, presentCount, noZeroPresentB, truthyB,
            densFromPresTempQ, hp, ht]
  | some dv =>
    cases p with
    | none =>
      cases t with
      | none => simp [autoEos, autoEosSpec, presentCount, noZeroPresentB, truthyB]
      | some tv =>
        by_cases hd : dv = 0 <;> by_cases ht : tv = 0 <;>
          simp [autoEos, autoEosSpec, presentCount, noZeroPresentB, truthyB,
            presFromDensTempQ, hd, ht]
    | some pv =>
      cases t with
      | none =>
        by_cases hd : dv = 0 <;> by_cases hp : pv = 0 <;>
          simp [autoEos, autoEosSpec, presentCount, noZeroPresentB, truthyB,
            tempFromDensPresQ, hd, hp]
      | some tv =>
        simp [autoEos, autoEosSpec, presentCount, noZeroPresentB, truthyB]

/-- An `EOSIdeal` state with dens = 1.0, pres absent, temp = 0.0 and identity
normalisations. -/
def eosZeroTempState : EOSState :=
  ⟨Option.some 1, Option.none, Option.some 0, muIonized, ⟨1, 1, 1⟩, ⟨1, 1, 1⟩⟩

/-- C5 counterexample: `eosZeroTempState` has exactly two members of the
triple present, yet `auto_eos` raises `ValueError` instead of computing the
pressure, because Python truthiness treats the stored temperature 0.0 like an
absent value. -/
theorem autoEos_two_present_counterexample :
    presentCount eosZeroTempState = 2 ∧
    autoEos eosZeroTempState = Except.error "ValueError" := by
  constructor
  · rfl
  · rfl

/-- C7: over an `EOSIdeal` instance whose input and output normalisations are
the identity, feeding the pressure computed by `pres_from_dens_temp` from a
positive density, temperature and mean molecular mass back into
`temp_from_dens_pres` returns the temperature, and into
`dens_from_pres_temp` returns the density. -/
theorem eos_triple_roundtrip (e : EOSState) (hi : e.inorm = ⟨1, 1, 1⟩)
    (ho : e.onorm = ⟨1, 1, 1⟩) (d t m : ℚ) (hd : 0 < d) (ht : 0 < t)
    (hm : 0 < m) :
    tempFromDensPresQ e (Option.some d)
        (Option.some (presFromDensTempQ e (Option.some d) (Option.some t)
          (Option.some m))) (Option.some m) = t ∧
    densFromPresTempQ e
        (Option.some (presFromDensTempQ e (Option.some d) (Option.some t)
          (Option.some m))) (Option.some t) (Option.some m) = d := by
  have hkb : kboltzQ ≠ 0 := by norm_num [kboltzQ]
  have hamu : amuQ ≠ 0 := by norm_num [amuQ]
  constructor
  · simp only [tempFromDensPresQ, presFromDensTempQ, hi, ho, Option.getD]
    field_simp
    ring
  · simp only [densFromPresTempQ, presFromDensTempQ, hi, ho, Option.getD]
    field_simp
    ring

/-- A fresh `EOSIdeal` state with identity input and output normalisations
and all triple members absent (the `EOSIdeal()` default). -/
def eosIdState : EOSState :=
  ⟨Option.none, Option.none, Option.none, muIonized, ⟨1, 1, 1⟩, ⟨1, 1, 1⟩⟩

/-- Witness for C7 at dens = 2, temp = 3, mu = 1 on a fresh identity-normed
instance. -/
theorem eos_triple_roundtrip_witness :
    tempFromDensPresQ eosIdState (Option.some 2)
      (Option.some (presFromDensTempQ eosIdState (Option.some 2)
        (Option.some 3) (Option.some 1))) (Option.some 1) = 3 :=
  (eos_triple_roundtrip eosIdState rfl rfl 2 3 1 (by norm_num) (by norm_num)
    (by norm_num)).1

/-! ## The dimensional-normalisation engine (norm.py `PhysNorm`) -/

/-- The dimension table `PhysNorm.defs` (norm.py lines 45-68): each named
physical quantity with its exponent vector over the five base dimensions
length, mass, time, current, temperature, in table order. -/
def physDefs : List (String × (Fin 5 → ℤ)) :=
  [("x", ![1, 0, 0, 0, 0]),
   ("m", ![0, 1, 0, 0, 0]),
   ("t", ![0, 0, 1, 0, 0]),
   ("curr", ![0, 0, 0, 1, 0]),
   ("temp", ![0, 0, 0, 0, 1]),
   ("v", ![1, 0, -1, 0, 0]),
   ("dens", ![-3, 1, 0, 0, 0]),
   ("pres", ![-1, 1, -2, 0, 0]),
   ("pmom", ![1, 1, -1, 0, 0]),
   ("pdot", ![1, 1, -2, 0, 0]),
   ("pflx", ![-1, 1, -2, 0, 0]),
   ("ener", ![2, 1, -2, 0, 0]),
   ("epwr", ![2, 1, -3, 0, 0]),
   ("eflx", ![0, 1, -3, 0, 0]),
   ("eint", ![2, 0, -2, 0, 0]),
   ("edot", ![2, 0, -3, 0, 0]),
   ("cool", ![5, 1, -3, 0, 0]),
   ("mdot", ![0, 1, -1, 0, 0]),
   ("area", ![2, 0, 0, 0, 0]),
   ("volume", ![3, 0, 0, 0, 0]),
   ("newton", ![3, -1, -2, 0, 0]),
   ("none", ![0, 0, 0, 0, 0])]

/-- The base-dimension names `PhysNorm.dimdefs` (norm.py line 36). -/
def dimdefs : Fin 5 → String :=
  !["length", "mass", "time", "current", "temperature"]

/-- `p` is a solution of the linear system solved by
`la.solve(cm.T, self.defs[ip][0])` in `PhysNorm.__init__` (norm.py line 99):
`M` stacks the exponent vectors of the `n` anchors as rows (the coefficient
matrix `cm`), and the per-anchor powers `p` satisfy `cm.T @ p = e`.
Idealised to exact rational arithmetic. -/
def solvesFor {n : ℕ} (M : Fin n → Fin 5 → ℤ) (p : Fin n → ℚ)
    (e : Fin 5 → ℤ) : Prop :=
  ∀ b : Fin 5, ∑ i, p i * (M i b : ℚ) = (e b : ℚ)

instance solvesForDecidable {n : ℕ} (M : Fin n → Fin 5 → ℤ) (p : Fin n → ℚ)
    (e : Fin 5 → ℤ) : Decidable (solvesFor M p e) :=
  inferInstanceAs (Decidable (∀ b : Fin 5, ∑ i, p i * (M i b : ℚ) = (e b : ℚ)))

/-- The condition under which `la.solve` succeeds and returns the unique
solution (anything else raises `LinAlgError` and the constructor fails): the
stacked anchor exponent matrix has trivial kernel. -/
def uniqSystem {n : ℕ} (M : Fin n → Fin 5 → ℤ) : Prop :=
  ∀ q : Fin n → ℚ, (∀ b : Fin 5, ∑ i, q i * (M i b : ℚ) = 0) →
    q = fun _ => 0

/-- The scaling factor constructed by `PhysNorm.__init__` (norm.py line 100):
the product over the anchors of (anchor scaling value) ** (solved power). -/
noncomputable def physScaling {n : ℕ} (v : Fin n → ℝ) (p : Fin n → ℚ) : ℝ :=
  ∏ i, v i ^ ((p i : ℝ))

/-- Two solutions of the same anchor system coincide when the system has
trivial kernel. -/
theorem solvesFor_unique {n : ℕ} {M : Fin n → Fin 5 → ℤ} (hU : uniqSystem M)
    {p q : Fin n → ℚ} {e : Fin 5 → ℤ} (hp : solvesFor M p e)
    (hq : solvesFor M q e) : p = q := by
  have h0 : ∀ b : Fin 5, ∑ i, (fun j => p j - q j) i * (M i b : ℚ) = 0 := by
    intro b
    have h1 := hp b
    have h2 := hq b
    simp only [sub_mul, Finset.sum_sub_distrib, h1, h2, sub_self]
  have hz := hU (fun j => p j - q j) h0
  funext i
  exact sub_eq_zero.mp (congrFun hz i)

/-- C3: looking up an anchor in the constructed scaling table returns exactly
the supplied scaling value.  `p` is the power vector `la.solve` produced for
the `j`-th anchor's own exponent vector; the system having trivial kernel
(otherwise `la.solve` raises and no table is built), `p` is the `j`-th unit
vector and the scaling product collapses to the supplied value `v j`. -/
theorem physNorm_anchor_roundtrip {n : ℕ} (M : Fin n → Fin 5 → ℤ)
    (v : Fin n → ℝ) (j : Fin n) (p : Fin n → ℚ)
    (hp : solvesFor M p (M j)) (hU : uniqSystem M) :
    physScaling v p = v j := by
  have hunit : solvesFor M (fun i => if i = j then 1 else 0) (M j) := by
    intro b
    simp [ite_mul, Finset.sum_ite_eq]
  have hpu := solvesFor_unique hU hp hunit
  rw [hpu]
  unfold physScaling
  rw [Finset.prod_eq_single j]
  · simp
  · intro i _ hij
    simp [hij]
  · intro h
    exact absurd (Finset.mem_univ j) h

/-- The identity anchor system: the five base quantities themselves supplied
as anchors (each row a unit exponent vector). -/
def idM : Fin 5 → Fin 5 → ℤ := fun i b => if i = b then 1 else 0

/-- The identity anchor system has trivial kernel. -/
theorem uniqSystem_idM : uniqSystem idM := by
  intro q h
  funext i
  have hb := h i
  simpa [idM, apply_ite (fun z : ℤ => (z : ℚ)), mul_ite, mul_one, mul_zero,
    Finset.sum_ite_eq'] using hb

/-- For the identity anchor system, the `j`-th unit vector solves the system
for the `j`-th anchor row. -/
theorem idM_unit_solves (j : Fin 5) :
    solvesFor idM (fun i => if i = j then 1 else 0) (idM j) := by
  intro b
  fin_cases j <;> fin_cases b <;> simp [idM, Fin.sum_univ_five]

/-- Witness for C3: anchoring on the five base quantities with value 7 for
each, the scaling looked up for the third anchor is exactly 7. -/
theorem physNorm_anchor_roundtrip_witness :
    physScaling (fun _ => (7 : ℝ))
      (fun i => if i = (2 : Fin 5) then 1 else 0) = 7 :=
  physNorm_anchor_roundtrip idM (fun _ => (7 : ℝ)) 2
    (fun i => if i = (2 : Fin 5) then 1 else 0) (idM_unit_solves 2)
    uniqSystem_idM

/-- C10: the identifier `none` carries the all-zero exponent vector in the
dimension table, so for any trivial-kernel anchor system its solved power
vector is zero and its scaling factor is exactly 1. -/
theorem physNorm_none_scaling_one {n : ℕ} (M : Fin n → Fin 5 → ℤ)
    (v : Fin n → ℝ) (e : Fin 5 → ℤ) (hmem : ("none", e) ∈ physDefs)
    (p : Fin n → ℚ) (hp : solvesFor M p e) (hU : uniqSystem M) :
    physScaling v p = 1 := by
  have he : e = ![0, 0, 0, 0, 0] := by
    simpa [physDefs] using hmem
  have h0 : solvesFor M (fun _ => 0) e := by
    intro b
    rw [he]
    fin_cases b <;> simp
  have hpz := solvesFor_unique hU hp h0
  rw [hpz]
  unfold physScaling
  simp

/-- Witness for C10: the identity anchor system with anchor values 3; the
scaling of the dimensionless identifier is 1. -/
theorem physNorm_none_scaling_one_witness :
    physScaling (fun _ => (3 : ℝ)) (fun _ : Fin 5 => (0 : ℚ)) = 1 :=
  physNorm_none_scaling_one idM (fun _ => (3 : ℝ)) ![0, 0, 0, 0, 0]
    (by decide) (fun _ => 0)
    (by intro b; fin_cases b <;> simp [idM, Fin.sum_univ_five])
    uniqSystem_idM

/-- A positive real to a finite rational power-sum splits into a product
(`x ** (a+b) = x**a * x**b` repeatedly). -/
theorem rpow_comb_eq {n : ℕ} (v : Fin n → ℝ) (hv : ∀ i, 0 < v i)
    (e : Fin 5 → ℤ) (pB : Fin 5 → Fin n → ℚ) :
    physScaling v (fun i => ∑ b : Fin 5, (e b : ℚ) * pB b i) =
      ∏ b : Fin 5, physScaling v (pB b) ^ (e b) := by
  unfold physScaling
  calc ∏ i, v i ^ (((∑ b : Fin 5, (e b : ℚ) * pB b i : ℚ)) : ℝ)
      = ∏ i, ∏ b : Fin 5, v i ^ ((pB b i : ℝ) * ((e b : ℤ) : ℝ)) := by
        refine Finset.prod_congr rfl fun i _ => ?_
        rw [show (((∑ b : Fin 5, (e b : ℚ) * pB b i : ℚ)) : ℝ)
            = ∑ b : Fin 5, (pB b i : ℝ) * ((e b : ℤ) : ℝ) by
          push_cast
          exact Finset.sum_congr rfl fun b _ => mul_comm _ _]
        exact Real.rpow_sum_of_pos (hv i) _ _
    _ = ∏ b : Fin 5, ∏ i, (v i ^ ((pB b i : ℚ) : ℝ)) ^ (e b) := by
        rw [Finset.prod_comm]
        refine Finset.prod_congr rfl fun b _ => Finset.prod_congr rfl fun i _ => ?_
        rw [Real.rpow_mul (le_of_lt (hv i)), Real.rpow_intCast]
    _ = ∏ b : Fin 5, (∏ i, v i ^ ((pB b i : ℚ) : ℝ)) ^ (e b) :=
        Finset.prod_congr rfl fun b _ => Finset.prod_zpow _ _ _

/-- C2: for any trivial-kernel anchor system with positive anchor values and
any identifier of the dimension table with exponent vector `e`, the solved
scaling factor equals the product of the five solved base-dimension scalings
(those of the unit exponent vectors x, m, t, curr, temp) raised to the
components of `e`. -/
theorem physNorm_scaling_multiplicative {n : ℕ} (M : Fin n → Fin 5 → ℤ)
    (v : Fin n → ℝ) (hv : ∀ i, 0 < v i) (k : String) (e : Fin 5 → ℤ)
    (_hmem : (k, e) ∈ physDefs) (pB : Fin 5 → Fin n → ℚ)
    (hB : ∀ b : Fin 5,
      solvesFor M (pB b) (fun b2 => if b2 = b then 1 else 0))
    (p : Fin n → ℚ) (hp : solvesFor M p e) (hU : uniqSystem M) :
    physScaling v p = ∏ b : Fin 5, physScaling v (pB b) ^ (e b) := by
  have hcomb : solvesFor M (fun i => ∑ b : Fin 5, (e b : ℚ) * pB b i) e := by
    intro b2
    have hsw : ∑ i, (∑ b : Fin 5, (e b : ℚ) * pB b i) * (M i b2 : ℚ)
        = ∑ b : Fin 5, (e b : ℚ) * ∑ i, pB b i * (M i b2 : ℚ) := by
      simp only [Finset.sum_mul, Finset.mul_sum]
      rw [Finset.sum_comm]
      exact Finset.sum_congr rfl fun b _ =>
        Finset.sum_congr rfl fun i _ => mul_assoc _ _ _
    rw [hsw]
    have hδ : ∀ b : Fin 5, ∑ i, pB b i * (M i b2 : ℚ)
        = ((if b2 = b then (1 : ℤ) else 0 : ℤ) : ℚ) := fun b => hB b b2
    simp only [hδ]
    simp [Finset.sum_ite_eq, apply_ite (fun z : ℤ => (z : ℚ))]
  have hpc := solvesFor_unique hU hp hcomb
  rw [hpc]
  exact rpow_comb_eq v hv e pB

/-- Witness for C2: the identity anchor system with value 2 for every anchor,
applied to the table entry `pres` with exponent vector (-1, 1, -2, 0, 0). -/
theorem physNorm_scaling_multiplicative_witness :
    physScaling (fun _ : Fin 5 => (2 : ℝ))
        (fun i => ((![-1, 1, -2, 0, 0] : Fin 5 → ℤ) i : ℚ))
      = ∏ b : Fin 5,
          physScaling (fun _ : Fin 5 => (2 : ℝ))
            (fun i => if i = b then 1 else 0) ^
              ((![-1, 1, -2, 0, 0] : Fin 5 → ℤ) b) := by
  refine physNorm_scaling_multiplicative idM (fun _ => (2 : ℝ))
    (fun _ => by norm_num) "pres" ![-1, 1, -2, 0, 0] (by decide)
    (fun b i => if i = b then 1 else 0) ?_
    (fun i => ((![-1, 1, -2, 0, 0] : Fin 5 → ℤ) i : ℚ)) ?_ uniqSystem_idM
  · intro b b2
    by_cases h : b = b2
    · subst h
      simp [idM]
    · have h2 : ¬ b2 = b := fun hh => h hh.symm
      simp [idM, h, h2]
  · intro b
    fin_cases b <;> simp [idM, Fin.sum_univ_five]

/-- The anchor exponent rows gathered by `PhysNorm.__init__` (norm.py lines
76-83): the dimension-table entries whose key was supplied, in table order
(the iteration order of `kwargs_od`). -/
def anchorDims (keys : List String) : List (Fin 5 → ℤ) :=
  (physDefs.filter (fun kv => decide (kv.1 ∈ keys))).map Prod.snd

/-- The column sum tested by the incompleteness check (norm.py line 87): for
base dimension `b`, the sum over the anchor rows of the absolute value of
the exponent of `b`. -/
def colAbsSum (dims : List (Fin 5 → ℤ)) (b : Fin 5) : ℕ :=
  (dims.map (fun e2 => (e2 b).natAbs)).sum

/-- The validation phase of `PhysNorm.__init__` (norm.py lines 70-90): every
supplied key must be in the dimension table, then the first base dimension
whose column of anchor exponents sums to zero in absolute value triggers the
incompleteness error.  `zip(*dims)` produces no columns at all when the
anchor list is empty, so in that case the column loop does not run and
validation passes (the constructor then only fails later, inside `la.solve`,
with an error that names no base dimension). -/
def physNormValidate (keys : List String) : Except String Unit :=
  match keys.find? (fun k => decide (k ∉ physDefs.map Prod.fst)) with
  | Option.some k => Except.error ("Error, Unknown key " ++ k ++ ".")
  | Option.none =>
    let dims := anchorDims keys
    if dims.isEmpty then Except.ok ()
    else
      match (List.finRange 5).find? (fun b => decide (colAbsSum dims b = 0)) with
      | Option.some b => Except.error
          ("This set of scalings is incomplete. No finite dimension for "
            ++ dimdefs b ++ ".")
      | Option.none => Except.ok ()

/-- A zero column sum of absolute values means every anchor row has exponent
zero in that base dimension. -/
theorem colAbsSum_eq_zero_iff (dims : List (Fin 5 → ℤ)) (b : Fin 5) :
    colAbsSum dims b = 0 ↔ ∀ e2 ∈ dims, e2 b = 0 := by
  simp [colAbsSum, List.sum_eq_zero_iff]

/-- C6 (amended): for every nonempty anchor set whose keys are all known to
the dimension table, if some base dimension has exponent zero in every
supplied anchor, validation fails with the error naming a base dimension all
of whose anchor exponents are zero (the first such, so no scaling table is
built). -/
theorem physNorm_missing_dim_error (keys : List String)
    (hknown : ∀ k ∈ keys, k ∈ physDefs.map Prod.fst) (hne : keys ≠ [])
    (hmiss : ∃ b : Fin 5, ∀ e2 ∈ anchorDims keys, e2 b = 0) :
    ∃ b : Fin 5, (∀ e2 ∈ anchorDims keys, e2 b = 0) ∧
      physNormValidate keys = Except.error
        ("This set of scalings is incomplete. No finite dimension for "
          ++ dimdefs b ++ ".") := by
  have hkey : keys.find? (fun k => decide (k ∉ physDefs.map Prod.fst))
      = Option.none := by
    rw [List.find?_eq_none]
    intro k hk
    simpa using hknown k hk
  have hdne : anchorDims keys ≠ [] := by
    obtain ⟨k, hk⟩ : ∃ k, k ∈ keys := by
      cases keys with
      | nil => exact absurd rfl hne
      | cons a l => exact ⟨a, List.mem_cons_self a l⟩
    obtain ⟨kv, hkv, hfst⟩ := List.mem_map.mp (hknown k hk)
    have hmemf : kv ∈ physDefs.filter (fun kv => decide (kv.1 ∈ keys)) := by
      rw [List.mem_filter]
      refine ⟨hkv, ?_⟩
      rw [hfst]
      simpa using hk
    exact List.ne_nil_of_mem (List.mem_map_of_mem Prod.snd hmemf)
  obtain ⟨b0, hb0⟩ := hmiss
  have hpred : ∃ b ∈ List.finRange 5,
      (fun b => decide (colAbsSum (anchorDims keys) b = 0)) b = true := by
    refine ⟨b0, List.mem_finRange b0, ?_⟩
    simpa using (colAbsSum_eq_zero_iff (anchorDims keys) b0).mpr hb0
  obtain ⟨b1, hfind⟩ := Option.isSome_iff_exists.mp
    (List.find?_isSome.mpr hpred)
  have hb1 : colAbsSum (anchorDims keys) b1 = 0 := by
    simpa using List.find?_some hfind
  refine ⟨b1, (colAbsSum_eq_zero_iff (anchorDims keys) b1).mp hb1, ?_⟩
  unfold physNormValidate
  rw [hkey]
  simp only [List.isEmpty_iff, hdne, if_neg, hfind]
  simp

/-- Witness for C6 at the known, nonempty anchor key set x, m, t, curr, in
which the temperature column is identically zero. -/
theorem physNorm_missing_dim_error_witness :
    ∃ b : Fin 5, (∀ e2 ∈ anchorDims ["x", "m", "t", "curr"], e2 b = 0) ∧
      physNormValidate ["x", "m", "t", "curr"] = Except.error
        ("This set of scalings is incomplete. No finite dimension for "
          ++ dimdefs b ++ ".") :=
  physNorm_missing_dim_error ["x", "m", "t", "curr"] (by decide) (by decide)
    (by decide)

/-- C6 counterexample: the empty anchor set has all of its keys (vacuously)
known and every base dimension (vacuously) missing, yet validation raises no
error naming a base dimension: the column loop of norm.py line 88 iterates
over `zip(*dims)`, which is empty. -/
theorem physNorm_empty_anchor_counterexample :
    (∃ b : Fin 5, ∀ e2 ∈ anchorDims [], e2 b = 0) ∧
      physNormValidate [] = Except.ok () := by
  constructor
  · exact ⟨0, by decide⟩
  · rfl

/-! ## The ufo parameter evaluator (ufo_parameters.py `UfoParams`) -/

/-- The identifiers of the dimension table, as an enumeration (`none` models
the key `'none'`, the dimensionless quantity). -/
inductive DimId
  | x | m | t | curr | temp | v | dens | pres | pmom | pdot | pflx | ener
  | epwr | eflx | eint | edot | cool | mdot | area | volume | newton | none
deriving DecidableEq

/-- The exponent vector of each dimension identifier (norm.py lines 45-68,
same data as `physDefs`). -/
def dimExp : DimId → Fin 5 → ℤ
  | DimId.x => ![1, 0, 0, 0, 0]
  | DimId.m => ![0, 1, 0, 0, 0]
  | DimId.t => ![0, 0, 1, 0, 0]
  | DimId.curr => ![0, 0, 0, 1, 0]
  | DimId.temp => ![0, 0, 0, 0, 1]
  | DimId.v => ![1, 0, -1, 0, 0]
  | DimId.dens => ![-3, 1, 0, 0, 0]
  | DimId.pres => ![-1, 1, -2, 0, 0]
  | DimId.pmom => ![1, 1, -1, 0, 0]
  | DimId.pdot => ![1, 1, -2, 0, 0]
  | DimId.pflx => ![-1, 1, -2, 0, 0]
  | DimId.ener => ![2, 1, -2, 0, 0]
  | DimId.epwr => ![2, 1, -3, 0, 0]
  | DimId.eflx => ![0, 1, -3, 0, 0]
  | DimId.eint => ![2, 0, -2, 0, 0]
  | DimId.edot => ![2, 0, -3, 0, 0]
  | DimId.cool => ![5, 1, -3, 0, 0]
  | DimId.mdot => ![0, 1, -1, 0, 0]
  | DimId.area => ![2, 0, 0, 0, 0]
  | DimId.volume => ![3, 0, 0, 0, 0]
  | DimId.newton => ![3, -1, -2, 0, 0]
  | DimId.none => ![0, 0, 0, 0, 0]

/-- The anchor rows of the default `UfoParams` normalisation
`PhysNorm(x=pc.kpc, t=pc.kyr, dens=0.6165*pc.amu,
temp=(pc.kpc/pc.kyr)**2*pc.amu/pc.kboltz, curr=1)` (ufo_parameters.py lines
41-42), gathered in dimension-table order: x, t, curr, temp, dens. -/
def ufoAnchorM : Fin 5 → Fin 5 → ℤ :=
  ![![1, 0, 0, 0, 0], ![0, 0, 1, 0, 0], ![0, 0, 0, 1, 0], ![0, 0, 0, 0, 1],
    ![-3, 1, 0, 0, 0]]

/-- The rows of the default anchor system are exactly the exponent vectors of
x, t, curr, temp and dens. -/
theorem ufoAnchorM_rows :
    ufoAnchorM = ![dimExp DimId.x, dimExp DimId.t, dimExp DimId.curr,
      dimExp DimId.temp, dimExp DimId.dens] := by
  decide

/-- The anchor scaling values of the default `UfoParams` normalisation, in
the same order. -/
noncomputable def ufoAnchorV : Fin 5 → ℝ :=
  ![kpc, kyr, 1, (kpc / kyr) ^ 2 * amu / kboltz, 0.6165 * amu]

/-- The per-anchor powers solved by `la.solve` for identifier `d` under the
default anchors, as integers: (eL + 3 eM, eT, eA, eK, eM) where e is the
exponent vector of `d`. -/
def ufoPowersZ (d : DimId) : Fin 5 → ℤ :=
  ![dimExp d 0 + 3 * dimExp d 1, dimExp d 2, dimExp d 3, dimExp d 4,
    dimExp d 1]

/-- The same powers as rationals (the type `la.solve` produces). -/
def ufoPowers (d : DimId) : Fin 5 → ℚ := fun i => (ufoPowersZ d i : ℚ)

/-- A rational power vector obtained by casting an integer solution solves
the same system. -/
theorem solvesFor_of_int {n : ℕ} (M : Fin n → Fin 5 → ℤ) (p : Fin n → ℤ)
    (e : Fin 5 → ℤ) (h : ∀ b : Fin 5, ∑ i, p i * M i b = e b) :
    solvesFor M (fun i => (p i : ℚ)) e := by
  intro b
  have hc : ((∑ i, p i * M i b : ℤ) : ℚ) = ((e b : ℤ) : ℚ) := by rw [h b]
  push_cast at hc
  exact hc

/-- `ufoPowers d` solves the default anchor system for every identifier, so
it is what `la.solve` returns in `PhysNorm.__init__` for the default
`UfoParams` normalisation. -/
theorem ufoPowers_solve (d : DimId) :
    solvesFor ufoAnchorM (ufoPowers d) (dimExp d) :=
  solvesFor_of_int ufoAnchorM (ufoPowersZ d) (dimExp d) (by cases d <;> decide)

/-- The default anchor system has trivial kernel, so `la.solve` succeeds on
it and `ufoPowers` is its unique solution. -/
theorem uniqSystem_ufoAnchorM : uniqSystem ufoAnchorM := by
  intro q h
  have h0 := h 0
  have h1 := h 1
  have h2 := h 2
  have h3 := h 3
  have h4 := h 4
  simp [ufoAnchorM, Fin.sum_univ_five, Matrix.vecHead, Matrix.vecTail]
    at h0 h1 h2 h3 h4
  funext i
  fin_cases i <;> simp <;> linarith

/-- The scaling table of the default `UfoParams` normalisation: for each
identifier, the `physScaling` product of the anchor values under the solved
powers (norm.py line 100). -/
noncomputable def defaultNorm (d : DimId) : ℝ :=
  physScaling ufoAnchorV (ufoPowers d)

/-- A `physScaling` whose powers are integers is a plain product of integer
powers. -/
theorem physScaling_intPowers {n : ℕ} (v : Fin n → ℝ) (z : Fin n → ℤ) :
    physScaling v (fun i => (z i : ℚ)) = ∏ i, v i ^ z i := by
  unfold physScaling
  refine Finset.prod_congr rfl fun i _ => ?_
  rw [show (((z i : ℚ)) : ℝ) = ((z i : ℤ) : ℝ) by push_cast; ring,
    Real.rpow_intCast]

/-- The default scaling table in closed zpow form. -/
theorem defaultNorm_eq_zpow (d : DimId) :
    defaultNorm d = ∏ i, ufoAnchorV i ^ ufoPowersZ d i :=
  physScaling_intPowers ufoAnchorV (ufoPowersZ d)

/-- Every anchor value of the default normalisation is positive. -/
theorem ufoAnchorV_pos (i : Fin 5) : 0 < ufoAnchorV i := by
  fin_cases i <;>
    norm_num [ufoAnchorV, kpc, kyr, amu, kboltz, amuQ, kboltzQ]

/-- Every scaling factor of the default normalisation is positive. -/
theorem defaultNorm_pos (d : DimId) : 0 < defaultNorm d := by
  rw [defaultNorm_eq_zpow]
  exact Finset.prod_pos fun i _ => zpow_pos (ufoAnchorV_pos i) _

/-- The default scaling of lengths is exactly the kiloparsec anchor. -/
theorem defaultNorm_x : defaultNorm DimId.x = kpc := by
  rw [defaultNorm_eq_zpow]
  simp [ufoAnchorV, ufoPowersZ, dimExp, Fin.prod_univ_five, Fin.isValue]

/-- The state of a `UfoParams` instance: the nine given parameters (already
converted to code units by the constructor), the eighteen derived attributes,
the two mean molecular masses and the scaling table of the normalisation
object. -/
structure UfoState where
  power : ℝ
  angle : ℝ
  speed : ℝ
  mdot : ℝ
  rufo : ℝ
  wufo : ℝ
  temp_ambient : ℝ
  dens_ambient : ℝ
  gamma : ℝ
  pres_ambient : ℝ
  eint_ambient : ℝ
  vsnd_ambient : ℝ
  area : ℝ
  pres : ℝ
  dens : ℝ
  temp : ℝ
  mach : ℝ
  eflx : ℝ
  pratio : ℝ
  dratio : ℝ
  eint : ℝ
  enth : ℝ
  pdot : ℝ
  pflx : ℝ
  r1 : ℝ
  r2 : ℝ
  delta : ℝ
  muu : ℝ
  mua : ℝ
  nrm : DimId → ℝ

/-- The keyword overrides accepted by the `eqn_` functions of `UfoParams`:
`Option.none` models an omitted keyword, which each `eqn_` function resolves
from the stored attribute (`if x == None: x = self.x`). -/
structure Overrides where
  power : Option ℝ
  angle : Option ℝ
  speed : Option ℝ
  mdot : Option ℝ
  rufo : Option ℝ
  wufo : Option ℝ
  dens_ambient : Option ℝ
  temp_ambient : Option ℝ
  gamma : Option ℝ
  mua : Option ℝ
  muu : Option ℝ

/-- No keyword supplied (the call `upd_var()` of the constructor loop). -/
def noOv : Overrides :=
  ⟨Option.none, Option.none, Option.none, Option.none, Option.none,
   Option.none, Option.none, Option.none, Option.none, Option.none,
   Option.none⟩

/-- `EOSIdeal.pres_from_dens_temp` (eos.py lines 150-160) with all three
arguments supplied, as `UfoParams` calls it through `self.eosa`, whose input
and output normalisations are both the `UfoParams` normalisation
(ufo_parameters.py lines 114-117): each argument is multiplied by the input
scaling of its quantity and the result is divided by the output pressure
scaling. -/
noncomputable def eosPresFromDensTemp (nrm : DimId → ℝ)
    (dens temp mu : ℝ) : ℝ :=
  (dens * nrm DimId.dens) * (temp * nrm DimId.temp) * kboltz / (mu * amu) /
    nrm DimId.pres

/-- `EOSIdeal.temp_from_dens_pres` (eos.py lines 173-182) with all three
arguments supplied, as `UfoParams` calls it through `self.eosu`. -/
noncomputable def eosTempFromDensPres (nrm : DimId → ℝ)
    (dens pres mu : ℝ) : ℝ :=
  mu * amu * (pres * nrm DimId.pres) / ((dens * nrm DimId.dens) * kboltz) /
    nrm DimId.temp

/-- `UfoParams.eqn_pres_ambient` (ufo_parameters.py lines 239-244). -/
noncomputable def eqn_pres_ambient (s : UfoState) (o : Overrides) : ℝ :=
  let temp_ambient := o.temp_ambient.getD s.temp_ambient
  let dens_ambient := o.dens_ambient.getD s.dens_ambient
  let mua := o.mua.getD s.mua
  eosPresFromDensTemp s.nrm dens_ambient temp_ambient mua

/-- `UfoParams.eqn_eint_ambient` (ufo_parameters.py lines 246-251). -/
noncomputable def eqn_eint_ambient (s : UfoState) (o : Overrides) : ℝ :=
  let temp_ambient := o.temp_ambient.getD s.temp_ambient
  let dens_ambient := o.dens_ambient.getD s.dens_ambient
  let gamma := o.gamma.getD s.gamma
  let pres_ambient := eqn_pres_ambient s
    { noOv with dens_ambient := Option.some dens_ambient,
                temp_ambient := Option.some temp_ambient }
  pres_ambient / (dens_ambient * (gamma - 1))

/-- `UfoParams.eqn_vsnd_ambient` (ufo_parameters.py lines 253-258). -/
noncomputable def eqn_vsnd_ambient (s : UfoState) (o : Overrides) : ℝ :=
  let temp_ambient := o.temp_ambient.getD s.temp_ambient
  let dens_ambient := o.dens_ambient.getD s.dens_ambient
  let gamma := o.gamma.getD s.gamma
  let pres_ambient := eqn_pres_ambient s
    { noOv with dens_ambient := Option.some dens_ambient,
                temp_ambient := Option.some temp_ambient }
  Real.sqrt (gamma * pres_ambient / dens_ambient)

/-- `UfoParams.eqn_area` (ufo_parameters.py lines 260-266). -/
noncomputable def eqn_area (s : UfoState) (o : Overrides) : ℝ :=
  let rufo := o.rufo.getD s.rufo
  let wufo := o.wufo.getD s.wufo
  2 * Real.pi * rufo * wufo

/-- `UfoParams.eqn_pres` (ufo_parameters.py lines 268-277). -/
noncomputable def eqn_pres (s : UfoState) (o : Overrides) : ℝ :=
  let power := o.power.getD s.power
  let speed := o.speed.getD s.speed
  let mdot := o.mdot.getD s.mdot
  let rufo := o.rufo.getD s.rufo
  let wufo := o.wufo.getD s.wufo
  let gamma := o.gamma.getD s.gamma
  let area := eqn_area s
    { noOv with rufo := Option.some rufo, wufo := Option.some wufo }
  (power - 0.5 * mdot * speed ^ 2) * (gamma - 1) / (gamma * area * speed)

/-- `UfoParams.eqn_eflx` (ufo_parameters.py lines 279-283); note the source
does not resolve `rufo` itself but passes the raw keyword on to `eqn_area`,
whose own default then applies. -/
noncomputable def eqn_eflx (s : UfoState) (o : Overrides) : ℝ :=
  let power := o.power.getD s.power
  let wufo := o.wufo.getD s.wufo
  let area := eqn_area s
    { noOv with rufo := o.rufo, wufo := Option.some wufo }
  power / area

/-- `UfoParams.eqn_dens` (ufo_parameters.py lines 285-292). -/
noncomputable def eqn_dens (s : UfoState) (o : Overrides) : ℝ :=
  let speed := o.speed.getD s.speed
  let mdot := o.mdot.getD s.mdot
  let rufo := o.rufo.getD s.rufo
  let wufo := o.wufo.getD s.wufo
  let area := eqn_area s
    { noOv with rufo := Option.some rufo, wufo := Option.some wufo }
  mdot / (area * speed)

/-- `UfoParams.eqn_temp` (ufo_parameters.py lines 294-307).  The local names
follow the source: line 304 binds the value of `eqn_pres` to the variable
`dens` and line 305 binds the value of `eqn_dens` to `pres`, and these are
then passed positionally to `temp_from_dens_pres(dens, pres, muu)`. -/
noncomputable def eqn_temp (s : UfoState) (o : Overrides) : ℝ :=
  let power := o.power.getD s.power
  let speed := o.speed.getD s.speed
  let mdot := o.mdot.getD s.mdot
  let rufo := o.rufo.getD s.rufo
  let wufo := o.wufo.getD s.wufo
  let gamma := o.gamma.getD s.gamma
  let muu := o.muu.getD s.muu
  let dens := eqn_pres s
    { noOv with power := Option.some power, speed := Option.some speed,
                mdot := Option.some mdot, rufo := Option.some rufo,
                wufo := Option.some wufo, gamma := Option.some gamma }
  let pres := eqn_dens s
    { noOv with speed := Option.some speed, mdot := Option.some mdot,
                rufo := Option.some rufo, wufo := Option.some wufo }
  eosTempFromDensPres s.nrm dens pres muu

/-- `UfoParams.eqn_mach` (ufo_parameters.py lines 337-347). -/
noncomputable def eqn_mach (s : UfoState) (o : Overrides) : ℝ :=
  let speed := o.speed.getD s.speed
  let temp_ambient := o.temp_ambient.getD s.temp_ambient
  let dens_ambient := o.dens_ambient.getD s.dens_ambient
  let gamma := o.gamma.getD s.gamma
  let vsnd := eqn_vsnd_ambient s
    { noOv with dens_ambient := Option.some dens_ambient,
                temp_ambient := Option.some temp_ambient,
                gamma := Option.some gamma }
  speed / vsnd

/-- `UfoParams.eqn_pratio` (ufo_parameters.py lines 349-364). -/
noncomputable def eqn_pratio (s : UfoState) (o : Overrides) : ℝ :=
  let power := o.power.getD s.power
  let speed := o.speed.getD s.speed
  let mdot := o.mdot.getD s.mdot
  let rufo := o.rufo.getD s.rufo
  let wufo := o.wufo.getD s.wufo
  let gamma := o.gamma.getD s.gamma
  let temp_ambient := o.temp_ambient.getD s.temp_ambient
  let dens_ambient := o.dens_ambient.getD s.dens_ambient
  let pres := eqn_pres s
    { noOv with power := Option.some power, speed := Option.some speed,
                mdot := Option.some mdot, rufo := Option.some rufo,
                wufo := Option.some wufo, gamma := Option.some gamma }
  let pres_ambient := eqn_pres_ambient s
    { noOv with dens_ambient := Option.some dens_ambient,
                temp_ambient := Option.some temp_ambient }
  pres / pres_ambient

/-- `UfoParams.eqn_dratio` (ufo_parameters.py lines 366-375). -/
noncomputable def eqn_dratio (s : UfoState) (o : Overrides) : ℝ :=
  let speed := o.speed.getD s.speed
  let mdot := o.mdot.getD s.mdot
  let rufo := o.rufo.getD s.rufo
  let wufo := o.wufo.getD s.wufo
  let dens_ambient := o.dens_ambient.getD s.dens_ambient
  let dens := eqn_dens s
    { noOv with speed := Option.some speed, mdot := Option.some mdot,
                rufo := Option.some rufo, wufo := Option.some wufo }
  dens / dens_ambient

/-- `UfoParams.eqn_eint` (ufo_parameters.py lines 378-391). -/
noncomputable def eqn_eint (s : UfoState) (o : Overrides) : ℝ :=
  let power := o.power.getD s.power
  let speed := o.speed.getD s.speed
  let mdot := o.mdot.getD s.mdot
  let rufo := o.rufo.getD s.rufo
  let wufo := o.wufo.getD s.wufo
  let gamma := o.gamma.getD s.gamma
  let pres := eqn_pres s
    { noOv with power := Option.some power, speed := Option.some speed,
                mdot := Option.some mdot, rufo := Option.some rufo,
                wufo := Option.some wufo, gamma := Option.some gamma }
  let dens := eqn_dens s
    { noOv with speed := Option.some speed, mdot := Option.some mdot,
                rufo := Option.some rufo, wufo := Option.some wufo }
  1 / (gamma - 1) * pres / dens

/-- `UfoParams.eqn_enth` (ufo_parameters.py lines 394-408). -/
noncomputable def eqn_enth (s : UfoState) (o : Overrides) : ℝ :=
  let power := o.power.getD s.power
  let speed := o.speed.getD s.speed
  let mdot := o.mdot.getD s.mdot
  let rufo := o.rufo.getD s.rufo
  let wufo := o.wufo.getD s.wufo
  let gamma := o.gamma.getD s.gamma
  let pres := eqn_pres s
    { noOv with power := Option.some power, speed := Option.some speed,
                mdot := Option.some mdot, rufo := Option.some rufo,
                wufo := Option.some wufo, gamma := Option.some gamma }
  let dens := eqn_dens s
    { noOv with speed := Option.some speed, mdot := Option.some mdot,
                rufo := Option.some rufo, wufo := Option.some wufo }
  let eint := eqn_eint s
    { noOv with power := Option.some power, speed := Option.some speed,
                mdot := Option.some mdot, rufo := Option.some rufo,
                wufo := Option.some wufo, gamma := Option.some gamma }
  eint + pres / dens

/-- `UfoParams.eqn_pdot` (ufo_parameters.py lines 411-416). -/
def eqn_pdot (s : UfoState) (o : Overrides) : ℝ :=
  let speed := o.speed.getD s.speed
  let mdot := o.mdot.getD s.mdot
  mdot * speed

/-- `UfoParams.eqn_pflx` (ufo_parameters.py lines 419-429). -/
noncomputable def eqn_pflx (s : UfoState) (o : Overrides) : ℝ :=
  let speed := o.speed.getD s.speed
  let mdot := o.mdot.getD s.mdot
  let rufo := o.rufo.getD s.rufo
  let wufo := o.wufo.getD s.wufo
  let area := eqn_area s
    { noOv with rufo := Option.some rufo, wufo := Option.some wufo }
  let pdot := eqn_pdot s
    { noOv with speed := Option.some speed, mdot := Option.some mdot }
  pdot / area

/-- `UfoParams.eqn_r1` (ufo_parameters.py lines 431-437). -/
noncomputable def eqn_r1 (s : UfoState) (o : Overrides) : ℝ :=
  let angle := o.angle.getD s.angle
  let rufo := o.rufo.getD s.rufo
  let wufo := o.wufo.getD s.wufo
  rufo - 0.5 * wufo / Real.cos (Real.pi / 180 * angle)

/-- `UfoParams.eqn_r2` (ufo_parameters.py lines 439-445). -/
noncomputable def eqn_r2 (s : UfoState) (o : Overrides) : ℝ :=
  let angle := o.angle.getD s.angle
  let rufo := o.rufo.getD s.rufo
  let wufo := o.wufo.getD s.wufo
  rufo + 0.5 * wufo / Real.cos (Real.pi / 180 * angle)

/-- `UfoParams.eqn_delta` (ufo_parameters.py lines 448-453); the `rufo`
keyword is accepted but never used by the source. -/
noncomputable def eqn_delta (s : UfoState) (o : Overrides) : ℝ :=
  let angle := o.angle.getD s.angle
  let wufo := o.wufo.getD s.wufo
  wufo / Real.cos (Real.pi / 180 * angle)

/-- The derived variables of `UfoParams.defs` (those not supplied to the
constructor), for which the constructor generates `upd_` functions, in table
order. -/
inductive DVar
  | pres_ambient | eint_ambient | vsnd_ambient | area | pres | dens | temp
  | mach | eflx | pratio | dratio | eint | enth | pdot | pflx | r1 | r2
  | delta
deriving DecidableEq

/-- Dispatch from a derived variable to its `eqn_` function (the
`getattr(self, 'eqn_'+var)` of `create_upd_fn`, ufo_parameters.py line
213). -/
noncomputable def eqnFn : DVar → UfoState → Overrides → ℝ
  | DVar.pres_ambient => eqn_pres_ambient
  | DVar.eint_ambient => eqn_eint_ambient
  | DVar.vsnd_ambient => eqn_vsnd_ambient
  | DVar.area => eqn_area
  | DVar.pres => eqn_pres
  | DVar.dens => eqn_dens
  | DVar.temp => eqn_temp
  | DVar.mach => eqn_mach
  | DVar.eflx => eqn_eflx
  | DVar.pratio => eqn_pratio
  | DVar.dratio => eqn_dratio
  | DVar.eint => eqn_eint
  | DVar.enth => eqn_enth
  | DVar.pdot => eqn_pdot
  | DVar.pflx => eqn_pflx
  | DVar.r1 => eqn_r1
  | DVar.r2 => eqn_r2
  | DVar.delta => eqn_delta

/-- The `setattr(self, var, ...)` of the auto-generated update function
(ufo_parameters.py line 223). -/
def setVar : DVar → ℝ → UfoState → UfoState
  | DVar.pres_ambient, x, s => { s with pres_ambient := x }
  | DVar.eint_ambient, x, s => { s with eint_ambient := x }
  | DVar.vsnd_ambient, x, s => { s with vsnd_ambient := x }
  | DVar.area, x, s => { s with area := x }
  | DVar.pres, x, s => { s with pres := x }
  | DVar.dens, x, s => { s with dens := x }
  | DVar.temp, x, s => { s with temp := x }
  | DVar.mach, x, s => { s with mach := x }
  | DVar.eflx, x, s => { s with eflx := x }
  | DVar.pratio, x, s => { s with pratio := x }
  | DVar.dratio, x, s => { s with dratio := x }
  | DVar.eint, x, s => { s with eint := x }
  | DVar.enth, x, s => { s with enth := x }
  | DVar.pdot, x, s => { s with pdot := x }
  | DVar.pflx, x, s => { s with pflx := x }
  | DVar.r1, x, s => { s with r1 := x }
  | DVar.r2, x, s => { s with r2 := x }
  | DVar.delta, x, s => { s with delta := x }

/-- The auto-generated update function `upd_var` of `create_upd_fn`
(ufo_parameters.py lines 212-226): evaluate the variable's `eqn_` function
with the given keyword overrides, store the result in the attribute, return
the stored value. -/
noncomputable def updTotal (v : DVar) (s : UfoState) (o : Overrides) :
    ℝ × UfoState :=
  (eqnFn v s o, setVar v (eqnFn v s o) s)

/-- C8: calling the auto-generated update function twice in succession with
identical keyword overrides returns the same value both times and leaves the
whole state (in particular the stored attribute of the variable) identical
after the first and the second call: the `eqn_` formulas read only the given
parameters, never the derived attribute being stored. -/
theorem upd_idempotent (v : DVar) (s : UfoState) (o : Overrides) :
    updTotal v (updTotal v s o).2 o = updTotal v s o := by
  cases v <;> rfl

/-- All variable identifiers of `UfoParams.defs` (ufo_parameters.py lines
71-99), given and derived, in table order. -/
inductive UVar
  | power | angle | speed | mdot | rufo | wufo | temp_ambient | dens_ambient
  | gamma | pres_ambient | eint_ambient | vsnd_ambient | area | pres | dens
  | temp | mach | eflx | pratio | dratio | eint | enth | pdot | pflx | r1
  | r2 | delta
deriving DecidableEq

/-- `getattr(self, k)` for a variable identifier. -/
def uattr (s : UfoState) : UVar → ℝ
  | UVar.power => s.power
  | UVar.angle => s.angle
  | UVar.speed => s.speed
  | UVar.mdot => s.mdot
  | UVar.rufo => s.rufo
  | UVar.wufo => s.wufo
  | UVar.temp_ambient => s.temp_ambient
  | UVar.dens_ambient => s.dens_ambient
  | UVar.gamma => s.gamma
  | UVar.pres_ambient => s.pres_ambient
  | UVar.eint_ambient => s.eint_ambient
  | UVar.vsnd_ambient => s.vsnd_ambient
  | UVar.area => s.area
  | UVar.pres => s.pres
  | UVar.dens => s.dens
  | UVar.temp => s.temp
  | UVar.mach => s.mach
  | UVar.eflx => s.eflx
  | UVar.pratio => s.pratio
  | UVar.dratio => s.dratio
  | UVar.eint => s.eint
  | UVar.enth => s.enth
  | UVar.pdot => s.pdot
  | UVar.pflx => s.pflx
  | UVar.r1 => s.r1
  | UVar.r2 => s.r2
  | UVar.delta => s.delta

/-- The dimension identifier of each variable, `self.defs[k][0]`
(ufo_parameters.py lines 71-99). -/
def varDim : UVar → DimId
  | UVar.power => DimId.epwr
  | UVar.angle => DimId.none
  | UVar.speed => DimId.v
  | UVar.mdot => DimId.mdot
  | UVar.rufo => DimId.x
  | UVar.wufo => DimId.x
  | UVar.temp_ambient => DimId.temp
  | UVar.dens_ambient => DimId.dens
  | UVar.gamma => DimId.none
  | UVar.pres_ambient => DimId.pres
  | UVar.eint_ambient => DimId.eint
  | UVar.vsnd_ambient => DimId.v
  | UVar.area => DimId.area
  | UVar.pres => DimId.pres
  | UVar.dens => DimId.dens
  | UVar.temp => DimId.temp
  | UVar.mach => DimId.none
  | UVar.eflx => DimId.eflx
  | UVar.pratio => DimId.none
  | UVar.dratio => DimId.none
  | UVar.eint => DimId.eint
  | UVar.enth => DimId.eint
  | UVar.pdot => DimId.pdot
  | UVar.pflx => DimId.pres
  | UVar.r1 => DimId.x
  | UVar.r2 => DimId.x
  | UVar.delta => DimId.x

/-- `UfoParams.update_dictionary_code` (ufo_parameters.py lines 177-181):
the code-units dictionary maps each identifier to its stored attribute. -/
def update_dictionary_code (s : UfoState) : UVar → ℝ :=
  fun k => uattr s k

/-- `UfoParams.update_dictionary_cgs` (ufo_parameters.py lines 183-187): the
CGS dictionary maps each identifier to its stored attribute times the
scaling factor of the identifier's dimension,
`getattr(self, k) * self.norm.scalings[self.defs[k][0]]`. -/
def update_dictionary_cgs (s : UfoState) : UVar → ℝ :=
  fun k => uattr s k * s.nrm (varDim k)

/-- C4: after `update_all_dictionaries` rebuilds both dictionaries from the
same stored attributes, the CGS entry of every variable equals its code-units
entry multiplied by the scaling factor of the variable's dimension. -/
theorem ufo_cgs_eq_code_mul_scaling (s : UfoState) (k : UVar) :
    update_dictionary_cgs s k =
      update_dictionary_code s k * s.nrm (varDim k) := rfl

/-- The error raised by a failing formula evaluation under Python float
semantics (division by zero raises `ZeroDivisionError`). -/
inductive PyErr
  | zeroDivision
deriving DecidableEq

/-- Python float division: raises on a zero denominator, otherwise returns
the quotient. -/
noncomputable def pydiv (a b : ℝ) : Except PyErr ℝ :=
  if b = 0 then Except.error PyErr.zeroDivision else Except.ok (a / b)

/-- The auto-generated update function of `create_upd_fn` over a fallible
formula evaluation (ufo_parameters.py lines 215-226): `upd_fn` first
evaluates `eqn_fn(**kwargs)` and only then executes
`setattr(self, var, ...)`; when the evaluation raises, the exception
propagates before any attribute is written. -/
noncomputable def updFnExc (eqn_fn : UfoState → Overrides → Except PyErr ℝ)
    (v : DVar) (s : UfoState) (o : Overrides) : Except PyErr ℝ × UfoState :=
  match eqn_fn s o with
  | Except.error err => (Except.error err, s)
  | Except.ok val => (Except.ok val, setVar v val s)

/-- C9: if the formula evaluation inside an auto-generated update function
raises an error, the whole variable store (every stored attribute) is
unchanged by the failed call. -/
theorem upd_failure_preserves_state
    (eqn_fn : UfoState → Overrides → Except PyErr ℝ) (v : DVar)
    (s : UfoState) (o : Overrides) (err : PyErr)
    (h : eqn_fn s o = Except.error err) :
    (updFnExc eqn_fn v s o).2 = s := by
  unfold updFnExc
  rw [h]

/-- `UfoParams.eqn_dens` under Python float semantics, where the final
division raises `ZeroDivisionError` when `area*speed` is zero. -/
noncomputable def eqnDensExc (s : UfoState) (o : Overrides) :
    Except PyErr ℝ :=
  let speed := o.speed.getD s.speed
  let mdot := o.mdot.getD s.mdot
  let rufo := o.rufo.getD s.rufo
  let wufo := o.wufo.getD s.wufo
  let area := eqn_area s
    { noOv with rufo := Option.some rufo, wufo := Option.some wufo }
  pydiv mdot (area * speed)

/-- A `UfoParams` state whose stored speed is zero (all other parameters 1,
adiabatic index 2, default normalisation, ionized-ISM mean masses). -/
noncomputable def stallState : UfoState :=
  ⟨1, 1, 0, 1, 1, 1, 1, 1, 2, 0, 0, 0, 0, 0, 0, 0, 0, 0, 0, 0, 0, 0, 0, 0,
   0, 0, 0, 0.6165, 0.6165, defaultNorm⟩

/-- Witness for C9: on `stallState` the density formula divides by
area*speed = 0 and raises, and the failed update leaves the state intact. -/
theorem upd_failure_preserves_state_witness :
    eqnDensExc stallState noOv = Except.error PyErr.zeroDivision ∧
    (updFnExc eqnDensExc DVar.dens stallState noOv).2 = stallState := by
  have h : eqnDensExc stallState noOv = Except.error PyErr.zeroDivision := by
    simp [eqnDensExc, stallState, noOv, pydiv, eqn_area]
  exact ⟨h, upd_failure_preserves_state eqnDensExc DVar.dens stallState noOv
    PyErr.zeroDivision h⟩

/-- The given parameters of the `UfoParams` constructor, in physical input
units (power in erg/s, polar angle in degrees, speed in units of c, mass
outflow rate in Msun/yr, radius and annulus width in kpc, ambient density in
multiples of mua*amu, ambient temperature in K). -/
structure UfoArgs where
  power : ℝ
  angle : ℝ
  speed : ℝ
  mdot : ℝ
  rufo : ℝ
  wufo : ℝ
  dens_ambient : ℝ
  temp_ambient : ℝ
  gamma : ℝ

/-- The state right after the unit conversion of `UfoParams.__init__`
(ufo_parameters.py lines 119-130): each given parameter divided by, or first
multiplied by its physical-unit constants and then divided by, the scaling of
its dimension.  Derived attributes do not exist yet in the source; they are
initialised to 0 here, a junk value no `eqn_` function ever reads. -/
noncomputable def ufoStart (a : UfoArgs) (nrm : DimId → ℝ) : UfoState :=
  ⟨a.power / nrm DimId.epwr, a.angle, a.speed * clight / nrm DimId.v,
   a.mdot * msun / yr / nrm DimId.mdot, a.rufo * kpc / nrm DimId.x,
   a.wufo * kpc / nrm DimId.x, a.temp_ambient / nrm DimId.temp,
   a.dens_ambient * 0.6165 * amu / nrm DimId.dens, a.gamma,
   0, 0, 0, 0, 0, 0, 0, 0, 0, 0, 0, 0, 0, 0, 0, 0, 0, 0,
   0.6165, 0.6165, nrm⟩

/-- The derived variables in `defs` table order: the constructor loop of
ufo_parameters.py lines 134-137 creates and calls the update function of
each of them in this order. -/
def derivedOrder : List DVar :=
  [DVar.pres_ambient, DVar.eint_ambient, DVar.vsnd_ambient, DVar.area,
   DVar.pres, DVar.dens, DVar.temp, DVar.mach, DVar.eflx, DVar.pratio,
   DVar.dratio, DVar.eint, DVar.enth, DVar.pdot, DVar.pflx, DVar.r1,
   DVar.r2, DVar.delta]

/-- `UfoParams.__init__` (ufo_parameters.py lines 31-140): convert the given
parameters to code units, then invoke the auto-generated update function of
every derived variable, in table order, with no keyword overrides. -/
noncomputable def ufoInit (a : UfoArgs) (nrm : DimId → ℝ) : UfoState :=
  derivedOrder.foldl (fun s v => (updTotal v s noOv).2) (ufoStart a nrm)

/-- The C1 failing input: power 4·N(epwr) erg/s, polar angle 0 degrees,
speed N(v)/c in units of c, mass outflow rate N(mdot)·yr/msun in Msun/yr,
radius 1 kpc, annulus width 1/(2·pi) kpc, ambient density and temperature 1,
adiabatic index 2 — chosen so that the converted code-unit values are the
round numbers 4, 1, 1, 1 and 1/(2·pi). -/
noncomputable def bugArgs : UfoArgs :=
  ⟨4 * defaultNorm DimId.epwr, 0, defaultNorm DimId.v / clight,
   defaultNorm DimId.mdot * yr / msun, 1, 1 / (2 * Real.pi), 1, 1, 2⟩

/-- C1 (code bug): the `UfoParams` instance constructed from the C1 failing
input stores pres, dens and temp values that violate the ideal-gas relation
pres = dens·temp·k_B/(muu·m_u) (in CGS units via the scaling table) by far
more than 1e-9 relative error: `eqn_temp` (ufo_parameters.py lines 304-305)
binds the pressure formula's value to its local `dens` and the density
formula's value to its local `pres` before calling
`temp_from_dens_pres(dens, pres, muu)`, so the stored temperature is
mu·m_u·dens_cgs/(pres_cgs·k_B) instead of mu·m_u·pres_cgs/(dens_cgs·k_B). -/
theorem ufo_temp_ideal_gas_violated :
    ¬ |(ufoInit bugArgs defaultNorm).pres * defaultNorm DimId.pres -
        (ufoInit bugArgs defaultNorm).dens * defaultNorm DimId.dens *
          ((ufoInit bugArgs defaultNorm).temp * defaultNorm DimId.temp) *
          kboltz / ((ufoInit bugArgs defaultNorm).muu * amu)| ≤
      1e-9 * |(ufoInit bugArgs defaultNorm).pres * defaultNorm DimId.pres|
    := by
  have hpres : (ufoInit bugArgs defaultNorm).pres
      = eqn_pres (ufoStart bugArgs defaultNorm) noOv := rfl
  have hdens : (ufoInit bugArgs defaultNorm).dens
      = eqn_dens (ufoStart bugArgs defaultNorm) noOv := rfl
  have htemp : (ufoInit bugArgs defaultNorm).temp
      = eqn_temp (ufoStart bugArgs defaultNorm) noOv := rfl
  have hmu : (ufoInit bugArgs defaultNorm).muu = 0.6165 := rfl
  have h1 : (ufoStart bugArgs defaultNorm).power = 4 := by
    show 4 * defaultNorm DimId.epwr / defaultNorm DimId.epwr = 4
    have h := defaultNorm_pos DimId.epwr
    field_simp
  have h2 : (ufoStart bugArgs defaultNorm).speed = 1 := by
    show defaultNorm DimId.v / clight * clight / defaultNorm DimId.v = 1
    have h := defaultNorm_pos DimId.v
    have hc : clight ≠ 0 := by norm_num [clight]
    field_simp
  have h3 : (ufoStart bugArgs defaultNorm).mdot = 1 := by
    show defaultNorm DimId.mdot * yr / msun * msun / yr /
      defaultNorm DimId.mdot = 1
    have h := defaultNorm_pos DimId.mdot
    have hy : yr ≠ 0 := by norm_num [yr]
    have hm : msun ≠ 0 := by norm_num [msun]
    field_simp
  have h4 : (ufoStart bugArgs defaultNorm).rufo = 1 := by
    show 1 * kpc / defaultNorm DimId.x = 1
    rw [defaultNorm_x]
    have h : kpc ≠ 0 := by norm_num [kpc]
    field_simp
  have h5 : (ufoStart bugArgs defaultNorm).wufo = 1 / (2 * Real.pi) := by
    show 1 / (2 * Real.pi) * kpc / defaultNorm DimId.x = 1 / (2 * Real.pi)
    rw [defaultNorm_x]
    have h : kpc ≠ 0 := by norm_num [kpc]
    field_simp
    ring
  have h6 : (ufoStart bugArgs defaultNorm).gamma = 2 := rfl
  have hpi := Real.pi_ne_zero
  have hpval : eqn_pres (ufoStart bugArgs defaultNorm) noOv = 7 / 4 := by
    rw [show eqn_pres (ufoStart bugArgs defaultNorm) noOv
        = ((ufoStart bugArgs defaultNorm).power -
            0.5 * (ufoStart bugArgs defaultNorm).mdot *
              (ufoStart bugArgs defaultNorm).speed ^ 2) *
          ((ufoStart bugArgs defaultNorm).gamma - 1) /
          ((ufoStart bugArgs defaultNorm).gamma *
            (2 * Real.pi * (ufoStart bugArgs defaultNorm).rufo *
              (ufoStart bugArgs defaultNorm).wufo) *
            (ufoStart bugArgs defaultNorm).speed) from rfl,
      h1, h2, h3, h4, h5, h6]
    field_simp
    ring
  have hdval : eqn_dens (ufoStart bugArgs defaultNorm) noOv = 1 := by
    rw [show eqn_dens (ufoStart bugArgs defaultNorm) noOv
        = (ufoStart bugArgs defaultNorm).mdot /
          (2 * Real.pi * (ufoStart bugArgs defaultNorm).rufo *
              (ufoStart bugArgs defaultNorm).wufo *
            (ufoStart bugArgs defaultNorm).speed) from rfl,
      h2, h3, h4, h5]
    field_simp
  have htval : eqn_temp (ufoStart bugArgs defaultNorm) noOv
      = eosTempFromDensPres defaultNorm (7 / 4) 1 0.6165 := by
    rw [show eqn_temp (ufoStart bugArgs defaultNorm) noOv
        = eosTempFromDensPres defaultNorm
            (eqn_pres (ufoStart bugArgs defaultNorm) noOv)
            (eqn_dens (ufoStart bugArgs defaultNorm) noOv) 0.6165 from rfl,
      hpval, hdval]
  rw [hpres, hdens, htemp, hmu, hpval, hdval, htval]
  unfold eosTempFromDensPres
  have hNp := defaultNorm_pos DimId.pres
  have hNd := defaultNorm_pos DimId.dens
  have hNt := defaultNorm_pos DimId.temp
  have hamu : (0 : ℝ) < amu := by norm_num [amu, amuQ]
  have hkb : (0 : ℝ) < kboltz := by norm_num [kboltz, kboltzQ]
  have hE : 7 / 4 * defaultNorm DimId.pres -
      1 * defaultNorm DimId.dens *
        (0.6165 * amu * (1 * defaultNorm DimId.pres) /
            (7 / 4 * defaultNorm DimId.dens * kboltz) /
            defaultNorm DimId.temp * defaultNorm DimId.temp) *
        kboltz / (0.6165 * amu)
      = 33 / 28 * defaultNorm DimId.pres := by
    field_simp
    ring
  rw [hE]
  rw [not_le]
  rw [abs_of_pos (by positivity), abs_of_pos (by positivity)]
  nlinarith [hNp]

end UfoParameters
